import Mathlib

/-!
Shallow embedding of the flight-watcher deal-monitoring engine
(`src/flight_watcher.py` and `src/watcher.py`).

Conventions of the embedding:
* Timestamps are rationals measured in minutes; the Python source stores ISO
  timestamps and compares `(now - t).total_seconds() / 60` against intervals
  given in minutes, which over the exact rationals is the comparison
  `now - t < interval` used here.
* Prices and thresholds are rationals (the source uses Python floats).
* Python dicts are modelled as association lists with the usual
  lookup/assignment semantics; Python sets as lists with membership.
* The seen-alert key is built in the source as the f-string
  `f"{origin}_{dest}_{cabin}_{price}_{flight.get('id')}"`; it is modelled
  here as the tuple of those components.
-/

namespace FlightWatcher

/-- Dictionary lookup on an association list (Python `d.get(k)`). -/
def alookup {α β : Type} [DecidableEq α] (k : α) : List (α × β) → Option β
  | [] => none
  | (a, b) :: rest => if a = k then some b else alookup k rest

/-- Dictionary assignment on an association list (Python `d[k] = v`):
replaces the value at an existing key, otherwise appends the binding. -/
def aset {α β : Type} [DecidableEq α] (k : α) (v : β) : List (α × β) → List (α × β)
  | [] => [(k, v)]
  | (a, b) :: rest => if a = k then (k, v) :: rest else (a, b) :: aset k v rest

/-- `DEFAULT_INTERVAL_MIN` from the source: baseline polling interval in minutes. -/
def DEFAULT_INTERVAL_MIN : ℚ := 35

/-- `HIGH_FREQ_INTERVAL_MIN` from the source: burst polling interval in minutes. -/
def HIGH_FREQ_INTERVAL_MIN : ℚ := 5

/-- `HIGH_FREQ_DURATION_MIN` from the source: maximum burst duration in minutes. -/
def HIGH_FREQ_DURATION_MIN : ℚ := 120

/-- The fixed daily API quota literal `2000` from `search_flights_for_route`. -/
def API_QUOTA : ℕ := 2000

/-- A route dict as built by `price_first` in `src/flight_watcher.py`:
origin, destination, days_ahead, per-cabin thresholds, owning chat id, plus
the scheduling field `high_freq_start` that `search_flights_for_route`
reads with `route.get("high_freq_start", None)`. -/
structure Route where
  origin : String
  destination : String
  days_ahead : ℕ
  thresholds : List (String × ℚ)
  chat_id : Int
  high_freq_start : Option ℚ
deriving DecidableEq, Repr

/-- One fare offer from the fare-search response. `priceTotal` models
`flight.get("price", {}).get("total", 0)` before the `float` conversion
(absent price ⇒ `none`); `cabinRaw` models the nested
`travelerPricings[0].fareDetailsBySegment[0].cabin` lookup (absent ⇒ `none`,
which the source defaults to `"economy"`); `offerId` models
`flight.get('id')`. -/
structure Offer where
  priceTotal : Option ℚ
  cabinRaw : Option String
  offerId : Option String
deriving DecidableEq, Repr

/-- `float(flight.get("price", {}).get("total", 0))`: a missing price is 0. -/
def offerPrice (o : Offer) : ℚ := o.priceTotal.getD 0

/-- Python `str.lower()`, written out over the character list so that it
evaluates on concrete inputs. -/
def pyLower (s : String) : String := String.mk (s.data.map Char.toLower)

/-- The cabin string after `.get("cabin", "economy").lower()`. -/
def offerCabinName (o : Offer) : String := pyLower (o.cabinRaw.getD "economy")

/-- Lines 153-155 of `src/flight_watcher.py`: `if cabin not in thresholds:
cabin = "economy"`. -/
def effectiveCabin (th : List (String × ℚ)) (c : String) : String :=
  if (alookup c th).isSome then c else "economy"

/-- `thresholds[cabin]` read on line 162. The Python source raises `KeyError`
when the (already economy-defaulted) cabin is absent from the dict, aborting
the offer loop; theorems about this read are stated under the hypothesis that
the economy threshold is configured, which the intake flow guarantees
(`price_economy` always sets it), so the `getD 0` default is never reached
in the situations the theorems describe. -/
def thresholdOf (th : List (String × ℚ)) (c : String) : ℚ :=
  (alookup c th).getD 0

/-- The seen-alert key `f"{origin}_{dest}_{cabin}_{price}_{flight.get('id')}"`,
modelled as the tuple of its components. -/
abbrev SeenKey := String × String × String × ℚ × Option String

/-- The key built on line 157 for one offer (note it uses the
economy-defaulted cabin). -/
def seenKeyOf (origin dest : String) (th : List (String × ℚ)) (o : Offer) : SeenKey :=
  (origin, dest, effectiveCabin th (offerCabinName o), offerPrice o, o.offerId)

/-- One alert message handed to `send_telegram` (the fields interpolated into
the message text on lines 166-173). -/
structure Alert where
  chat_id : Int
  origin : String
  destination : String
  cabin : String
  price : ℚ
  offerId : Option String
deriving DecidableEq, Repr

/-- The mutable state threaded through the offer loop of
`search_flights_for_route` (lines 151-178): the global `seen_alerts` set, the
route's `high_freq_start` field, and the alerts sent so far. -/
structure EvalState where
  seen_alerts : List SeenKey
  high_freq_start : Option ℚ
  alerts : List Alert
deriving DecidableEq, Repr

/-- The body of the offer loop, lines 151-178 of `src/flight_watcher.py`:
extract price and cabin (defaulting the cabin to economy when it has no
configured threshold), skip the offer when its seen-alert key is already
recorded, otherwise alert exactly when `price <= thresholds[cabin]`, in which
case the key is recorded, the message sent, and `high_freq_start` set to
`now` if not already set. -/
def evalOffer (origin dest : String) (th : List (String × ℚ)) (chat : Int)
    (now : ℚ) (st : EvalState) (o : Offer) : EvalState :=
  let price := offerPrice o
  let cabin := effectiveCabin th (offerCabinName o)
  let key : SeenKey := (origin, dest, cabin, price, o.offerId)
  if key ∈ st.seen_alerts then st
  else if price ≤ thresholdOf th cabin then
    { seen_alerts := key :: st.seen_alerts
      high_freq_start := match st.high_freq_start with
        | some t => some t
        | none => some now
      alerts := st.alerts ++ [⟨chat, origin, dest, cabin, price, o.offerId⟩] }
  else st

/-- Lines 98-107 of `src/flight_watcher.py`: choose the polling interval for
this pass, demoting (clearing `high_freq_start`) when the burst window has
elapsed. Returns the interval together with the possibly-mutated route. -/
def decideInterval (route : Route) (now : ℚ) : ℚ × Route :=
  match route.high_freq_start with
  | some t =>
    if now - t < HIGH_FREQ_DURATION_MIN then (HIGH_FREQ_INTERVAL_MIN, route)
    else (DEFAULT_INTERVAL_MIN, { route with high_freq_start := none })
  | none => (DEFAULT_INTERVAL_MIN, route)

/-- The cache key `f"{origin}_{dest}_{chat_id}"` of line 110, modelled as
the tuple of its components. -/
abbrev PollKey := String × String × Int

/-- The poll-cache key for a route. -/
def pollKey (route : Route) : PollKey :=
  (route.origin, route.destination, route.chat_id)

/-- The global mutable state of `src/flight_watcher.py`: `user_routes`,
`seen_alerts`, `cache` and `api_usage`. Cache entries only ever hold the
`"last_checked"` timestamp (line 118 is the sole write), so the entry value
is that timestamp. -/
structure WatcherState where
  user_routes : List (String × List Route)
  seen_alerts : List SeenKey
  cache : List (PollKey × ℚ)
  api_usage : List (Int × ℕ)
deriving DecidableEq, Repr

/-- Result of one `search_flights_for_route` pass: the route dict after its
in-place mutations, the global state, the alerts sent, and whether the
outbound fare-search HTTP call was issued. -/
structure StepResult where
  route : Route
  state : WatcherState
  sent : List Alert
  queried : Bool
deriving DecidableEq, Repr

/-- `search_flights_for_route` (lines 84-181 of `src/flight_watcher.py`) on
its success path, parameterised by the offers the fare-search call would
return: decide the interval (possibly demoting an expired burst), skip when
the last poll is too recent, otherwise record `last_checked`, enforce the
API quota (the `setdefault` inserts a zero entry even when the quota then
blocks the call), increment the usage counter, and run the offer loop. -/
def searchFlightsForRoute (st : WatcherState) (route : Route) (now : ℚ)
    (offers : List Offer) : StepResult :=
  let ir := decideInterval route now
  let skip : Bool :=
    match alookup (pollKey route) st.cache with
    | some last => decide (now - last < ir.1)
    | none => false
  if skip then ⟨ir.2, st, [], false⟩
  else
    let st1 : WatcherState := { st with cache := aset (pollKey route) now st.cache }
    let usage := (alookup route.chat_id st.api_usage).getD 0
    let st2 : WatcherState := { st1 with api_usage := aset route.chat_id usage st1.api_usage }
    if API_QUOTA ≤ usage then ⟨ir.2, st2, [], false⟩
    else
      let st3 : WatcherState :=
        { st2 with api_usage := aset route.chat_id (usage + 1) st2.api_usage }
      let ev0 : EvalState := ⟨st3.seen_alerts, ir.2.high_freq_start, []⟩
      let ev := offers.foldl
        (evalOffer route.origin route.destination route.thresholds route.chat_id now) ev0
      ⟨{ ir.2 with high_freq_start := ev.high_freq_start },
        { st3 with seen_alerts := ev.seen_alerts }, ev.alerts, true⟩

/-- `price_first` (lines 234-248 of `src/flight_watcher.py`), registry part:
`user_routes.setdefault(user_id, []).append(route)` — the new route is
appended to the submitting user's list unconditionally. -/
def addRoute (ur : List (String × List Route)) (uid : String) (r : Route) :
    List (String × List Route) :=
  aset uid ((alookup uid ur).getD [] ++ [r]) ur

/-- `remove` (lines 265-270 of `src/flight_watcher.py`): replace the calling
user's route list with `[]` and dump the whole registry to `routes.json`.
Returns the new state together with the registry image that is persisted. -/
def removeRoutes (st : WatcherState) (uid : String) :
    WatcherState × List (String × List Route) :=
  let ur := aset uid [] st.user_routes
  ({ st with user_routes := ur }, ur)

/-- A route record as built by `telegram_webhook` in `src/watcher.py`
(lines 129-139). -/
structure RouteW where
  chat_id : Int
  origin : String
  destination : String
  min_days : ℕ
  max_days : ℕ
  max_price : ℚ
deriving DecidableEq, Repr

/-- The add-route branch of `telegram_webhook` (lines 141-144 of
`src/watcher.py`): `ROUTES.append(route)` — unconditional append. -/
def addRouteW (routes : List RouteW) (r : RouteW) : List RouteW :=
  routes ++ [r]

/-- Two `watcher.py` routes share the identifying tuple
(chat, origin, destination, min-days, max-days). Neither source file stores a
trip-type field, so the tuple is the stored part of the spec's
(chat, origin, destination, trip type, min-days, max-days). -/
def sameRouteTuple (a b : RouteW) : Bool :=
  a.chat_id = b.chat_id ∧ a.origin = b.origin ∧ a.destination = b.destination ∧
    a.min_days = b.min_days ∧ a.max_days = b.max_days

/-- Alert eligibility in the spec's words (§4.4 threshold check): an offer is
alert-eligible iff `price <= thresholds[cabin]`, the cabin defaulting to
economy's threshold if not separately configured. Stated from the spec for
comparison against the code's behaviour. -/
def specAlertEligible (th : List (String × ℚ)) (o : Offer) : Prop :=
  offerPrice o ≤ match alookup (offerCabinName o) th with
    | some v => v
    | none => (alookup "economy" th).getD 0

/-- Modelled from the spec: the volatility change
`(avgHistoricalPrice - observedPrice) / avgHistoricalPrice` of §4.4. No such
computation exists anywhere in the source; the definition follows the spec's
words and serves only to compare the spec's predicted burst trigger with the
code's actual one. -/
def specVolatilityChange (avgHistoricalPrice observedPrice : ℚ) : ℚ :=
  (avgHistoricalPrice - observedPrice) / avgHistoricalPrice

/-- Modelled from the spec: `VOLATILITY_THRESHOLD`, the configured fraction
the spec sets to 0.15 in its examples. The source defines no such constant. -/
def VOLATILITY_THRESHOLD : ℚ := 15 / 100

/-- Key lookup after key assignment at the same key. -/
theorem alookup_aset_self {α β : Type} [DecidableEq α] (k : α) (v : β) :
    ∀ l : List (α × β), alookup k (aset k v l) = some v
  | [] => by simp [aset, alookup]
  | (a, b) :: rest => by
    by_cases h : a = k
    · simp [aset, h, alookup]
    · simp [aset, h, alookup, alookup_aset_self k v rest]

/-- Key lookup after key assignment at a different key. -/
theorem alookup_aset_ne {α β : Type} [DecidableEq α] {k k' : α} (h : k ≠ k') (v : β) :
    ∀ l : List (α × β), alookup k' (aset k v l) = alookup k' l
  | [] => by simp [aset, alookup, h]
  | (a, b) :: rest => by
    by_cases ha : a = k
    · subst ha
      simp [aset, alookup, h, alookup_aset_ne h v rest]
    · simp only [aset, if_neg ha, alookup]
      by_cases ha' : a = k'
      · simp [ha']
      · simp [ha', alookup_aset_ne h v rest]

/-- The spec's eligibility wording agrees with the code's threshold read on
the economy-defaulted cabin. -/
theorem specAlertEligible_iff (th : List (String × ℚ)) (o : Offer) :
    specAlertEligible th o ↔
      offerPrice o ≤ thresholdOf th (effectiveCabin th (offerCabinName o)) := by
  unfold specAlertEligible effectiveCabin thresholdOf
  cases h : alookup (offerCabinName o) th <;> simp [h]

/-- Evaluating one unseen offer: the state it produces in each of the two
remaining branches of the loop body. -/
theorem evalOffer_fresh (origin dest : String) (th : List (String × ℚ)) (chat : Int)
    (now : ℚ) (st : EvalState) (o : Offer)
    (hFresh : seenKeyOf origin dest th o ∉ st.seen_alerts) :
    evalOffer origin dest th chat now st o =
      if offerPrice o ≤ thresholdOf th (effectiveCabin th (offerCabinName o)) then
        { seen_alerts := seenKeyOf origin dest th o :: st.seen_alerts
          high_freq_start := match st.high_freq_start with
            | some t => some t
            | none => some now
          alerts := st.alerts ++ [⟨chat, origin, dest,
            effectiveCabin th (offerCabinName o), offerPrice o, o.offerId⟩] }
      else st := by
  simp only [seenKeyOf] at hFresh
  simp only [evalOffer, if_neg hFresh]
  rfl

/-- Evaluating an already-seen offer leaves the state unchanged
(line 158-159: `if key in seen_alerts: continue`). -/
theorem evalOffer_seen (origin dest : String) (th : List (String × ℚ)) (chat : Int)
    (now : ℚ) (st : EvalState) (o : Offer)
    (hSeen : seenKeyOf origin dest th o ∈ st.seen_alerts) :
    evalOffer origin dest th chat now st o = st := by
  simp only [seenKeyOf] at hSeen
  simp only [evalOffer, if_pos hSeen]

/-- C1: for every offer processed for a route, the offer is alert-eligible
(the loop emits an alert for it, when its seen-key is fresh) if and only if
its price is at most the route's threshold for the offer's cabin class, a
cabin with no separately configured threshold being evaluated against the
economy threshold. -/
theorem C1_alert_eligibility (origin dest : String) (th : List (String × ℚ))
    (chat : Int) (now : ℚ) (st : EvalState) (o : Offer)
    (hFresh : seenKeyOf origin dest th o ∉ st.seen_alerts)
    (hEcon : (alookup "economy" th).isSome) :
    (evalOffer origin dest th chat now st o).alerts.length = st.alerts.length + 1 ↔
      specAlertEligible th o := by
  rw [specAlertEligible_iff, evalOffer_fresh origin dest th chat now st o hFresh]
  by_cases hle : offerPrice o ≤ thresholdOf th (effectiveCabin th (offerCabinName o))
  · simp [hle]
  · simp [hle]

/-- C1 witness: a concrete eligible offer at price 180 against an economy
threshold of 200. -/
theorem C1_witness :
    ((⟨some 180, some "ECONOMY", some "X1"⟩ : Offer).priceTotal = some 180) ∧
    ((evalOffer "KTM" "BKK" [("economy", 200)] 42 1000 ⟨[], none, []⟩
        ⟨some 180, some "ECONOMY", some "X1"⟩).alerts.length =
      ([] : List Alert).length + 1 ↔
      specAlertEligible [("economy", 200)] ⟨some 180, some "ECONOMY", some "X1"⟩) :=
  ⟨rfl, C1_alert_eligibility "KTM" "BKK" [("economy", 200)] 42 1000 ⟨[], none, []⟩
    ⟨some 180, some "ECONOMY", some "X1"⟩ (by decide) (by decide)⟩

/-- C2: an eligible fresh offer, fed through the loop body twice with state
carried over, yields exactly one alert: the first pass records the seen-key
and emits, and any pass whose key is already present leaves the state
untouched. -/
theorem C2_dedup_idempotence (origin dest : String) (th : List (String × ℚ))
    (chat : Int) (now : ℚ) (st : EvalState) (o : Offer)
    (hFresh : seenKeyOf origin dest th o ∉ st.seen_alerts)
    (hElig : offerPrice o ≤ thresholdOf th (effectiveCabin th (offerCabinName o))) :
    (evalOffer origin dest th chat now
        (evalOffer origin dest th chat now st o) o).alerts.length =
      st.alerts.length + 1 ∧
    seenKeyOf origin dest th o ∈ (evalOffer origin dest th chat now st o).seen_alerts ∧
    ∀ st' : EvalState, seenKeyOf origin dest th o ∈ st'.seen_alerts →
      evalOffer origin dest th chat now st' o = st' := by
  have hstep := evalOffer_fresh origin dest th chat now st o hFresh
  rw [if_pos hElig] at hstep
  have hmem : seenKeyOf origin dest th o ∈
      (evalOffer origin dest th chat now st o).seen_alerts := by
    rw [hstep]; exact List.mem_cons_self _ _
  refine ⟨?_, hmem, fun st' h => evalOffer_seen origin dest th chat now st' o h⟩
  rw [evalOffer_seen origin dest th chat now _ o hmem, hstep]
  simp

/-- C2 witness: the concrete offer of the spec's scenario (price 180, cabin
economy, id "X1") passed through twice emits exactly one alert. -/
theorem C2_witness :
    (evalOffer "KTM" "BKK" [("economy", 200)] 42 1000
        (evalOffer "KTM" "BKK" [("economy", 200)] 42 1000 ⟨[], none, []⟩
          ⟨some 180, some "ECONOMY", some "X1"⟩)
        ⟨some 180, some "ECONOMY", some "X1"⟩).alerts.length =
      ([] : List Alert).length + 1 :=
  (C2_dedup_idempotence "KTM" "BKK" [("economy", 200)] 42 1000 ⟨[], none, []⟩
    ⟨some 180, some "ECONOMY", some "X1"⟩ (by decide) (by decide)).1

/-- C3 counterexample: submitting an identical route a second time is not
rejected in either source file — `telegram_webhook` (`src/watcher.py`) and
`price_first` (`src/flight_watcher.py`) both append unconditionally, so the
registry changes and ends up holding two routes with the same identifying
tuple. -/
theorem C3_counterexample :
    addRouteW [⟨7, "KTM", "BKK", 7, 10, 200⟩] ⟨7, "KTM", "BKK", 7, 10, 200⟩ ≠
        [⟨7, "KTM", "BKK", 7, 10, 200⟩] ∧
    sameRouteTuple (⟨7, "KTM", "BKK", 7, 10, 200⟩ : RouteW)
        ⟨7, "KTM", "BKK", 7, 10, 200⟩ = true ∧
    addRoute [("u", [⟨"KTM", "BKK", 60, [("economy", 200)], 7, none⟩])] "u"
        ⟨"KTM", "BKK", 60, [("economy", 200)], 7, none⟩ ≠
      [("u", [⟨"KTM", "BKK", 60, [("economy", 200)], 7, none⟩])] := by
  refine ⟨?_, by decide, ?_⟩ <;> decide

/-- C3 amended: adding a route never rejects duplicates — it appends the
candidate to the stored collection unconditionally, so the number of stored
routes sharing the candidate's (chat, origin, destination, min-days,
max-days) tuple grows by one on every submission, and in the per-user
registry the submitting user's list grows by exactly the new route. -/
theorem C3_amended (routes : List RouteW) (r : RouteW)
    (ur : List (String × List Route)) (uid : String) (fr : Route) :
    (addRouteW routes r).countP (fun x => sameRouteTuple x r) =
        routes.countP (fun x => sameRouteTuple x r) + 1 ∧
    alookup uid (addRoute ur uid fr) = some ((alookup uid ur).getD [] ++ [fr]) := by
  constructor
  · have hr : sameRouteTuple r r = true := by simp [sameRouteTuple]
    simp [addRouteW, List.countP_append, List.countP_cons, hr]
  · exact alookup_aset_self uid _ ur

/-- C5: whenever a route with burst active is processed and the burst window
has been exceeded, the interval decision demotes it to the baseline interval
and clears the burst flag (the source demotes at `>=` the window, hence in
particular at `>`); with no further alert in that pass the route leaves it
with burst off. -/
theorem C5_burst_bounded (r : Route) (now t : ℚ)
    (hAct : r.high_freq_start = some t)
    (hExp : HIGH_FREQ_DURATION_MIN < now - t) :
    decideInterval r now = (DEFAULT_INTERVAL_MIN, { r with high_freq_start := none }) ∧
    ∀ st : WatcherState,
      (searchFlightsForRoute st r now []).route.high_freq_start = none := by
  have hd : decideInterval r now =
      (DEFAULT_INTERVAL_MIN, { r with high_freq_start := none }) := by
    simp [decideInterval, hAct, not_lt.mpr hExp.le]
  refine ⟨hd, fun st => ?_⟩
  simp only [searchFlightsForRoute, hd, List.foldl]
  split
  · rfl
  · split <;> rfl

/-- C5 witness: burst started at time 0, processed at time 200 (window 120):
demoted to the 35-minute baseline with the flag cleared. -/
theorem C5_witness :
    decideInterval ⟨"KTM", "BKK", 60, [("economy", 200)], 42, some 0⟩ 200 =
      (DEFAULT_INTERVAL_MIN,
        { (⟨"KTM", "BKK", 60, [("economy", 200)], 42, some 0⟩ : Route) with
            high_freq_start := none }) :=
  (C5_burst_bounded ⟨"KTM", "BKK", 60, [("economy", 200)], 42, some 0⟩ 200 0
    rfl (by norm_num [HIGH_FREQ_DURATION_MIN])).1

/-- C6 counterexample: with historical average 100 and threshold 0.15, an
observed price of 84 has volatility change 0.16 ≥ 0.15, so the claim says
burst activates independently of the absolute threshold check; but against
an economy ceiling of 50 the code emits no alert and leaves burst off.
Conversely an observed price of 86 (change 0.14 < 0.15, so the claim says no
burst) under a ceiling of 200 is alerted and does activate burst. -/
theorem C6_counterexample :
    VOLATILITY_THRESHOLD ≤ specVolatilityChange 100 84 ∧
    (evalOffer "KTM" "BKK" [("economy", 50)] 42 1000 ⟨[], none, []⟩
        ⟨some 84, some "ECONOMY", some "X1"⟩).high_freq_start = none ∧
    specVolatilityChange 100 86 < VOLATILITY_THRESHOLD ∧
    (evalOffer "KTM" "BKK" [("economy", 200)] 42 1000 ⟨[], none, []⟩
        ⟨some 86, some "ECONOMY", some "Y1"⟩).high_freq_start = some 1000 := by
  refine ⟨?_, by decide, ?_, by decide⟩ <;>
    norm_num [VOLATILITY_THRESHOLD, specVolatilityChange]

/-- C6 amended: the code computes no historical average and no relative
change; a route transitions to burst with burst-started = now exactly when
the offer is alerted — its seen-key is fresh and its price is within the
(economy-defaulted) cabin threshold — and burst is not already active;
otherwise the burst state is unchanged. -/
theorem C6_burst_trigger (origin dest : String) (th : List (String × ℚ))
    (chat : Int) (now : ℚ) (st : EvalState) (o : Offer) :
    (evalOffer origin dest th chat now st o).high_freq_start =
      if seenKeyOf origin dest th o ∉ st.seen_alerts ∧
          offerPrice o ≤ thresholdOf th (effectiveCabin th (offerCabinName o)) then
        some (st.high_freq_start.getD now)
      else st.high_freq_start := by
  by_cases hm : seenKeyOf origin dest th o ∈ st.seen_alerts
  · rw [evalOffer_seen origin dest th chat now st o hm]
    simp [hm]
  · rw [evalOffer_fresh origin dest th chat now st o hm]
    by_cases hle : offerPrice o ≤ thresholdOf th (effectiveCabin th (offerCabinName o))
    · rw [if_pos hle, if_pos ⟨hm, hle⟩]
      cases st.high_freq_start <;> simp
    · rw [if_neg hle]
      simp [hm, hle]

/-- C9: an offer whose response carries no price (or no total inside the
price object) is treated as price 0, hence alert-eligible under every
non-negative effective cabin threshold, and when its seen-key is new an
alert with price 0 is emitted and the key recorded. -/
theorem C9_missing_price (origin dest : String) (th : List (String × ℚ))
    (chat : Int) (now : ℚ) (st : EvalState) (o : Offer)
    (hNone : o.priceTotal = none)
    (hFresh : seenKeyOf origin dest th o ∉ st.seen_alerts)
    (hNonneg : 0 ≤ thresholdOf th (effectiveCabin th (offerCabinName o))) :
    (evalOffer origin dest th chat now st o).alerts =
      st.alerts ++ [⟨chat, origin, dest, effectiveCabin th (offerCabinName o),
        0, o.offerId⟩] ∧
    seenKeyOf origin dest th o ∈ (evalOffer origin dest th chat now st o).seen_alerts := by
  have hp : offerPrice o = 0 := by simp [offerPrice, hNone]
  have hstep := evalOffer_fresh origin dest th chat now st o hFresh
  rw [hp] at hstep
  rw [if_pos hNonneg] at hstep
  rw [hstep]
  exact ⟨rfl, List.mem_cons_self _ _⟩

/-- C9 witness: an offer with no price field against an economy threshold of
200 produces a price-0 alert. -/
theorem C9_witness :
    (evalOffer "KTM" "BKK" [("economy", 200)] 42 1000 ⟨[], none, []⟩
        ⟨none, some "ECONOMY", some "Z1"⟩).alerts =
      [] ++ [⟨42, "KTM", "BKK",
        effectiveCabin [("economy", 200)]
          (offerCabinName ⟨none, some "ECONOMY", some "Z1"⟩), 0, some "Z1"⟩] :=
  (C9_missing_price "KTM" "BKK" [("economy", 200)] 42 1000 ⟨[], none, []⟩
    ⟨none, some "ECONOMY", some "Z1"⟩ rfl (by decide) (by decide)).1

/-- C10: the remove operation replaces exactly the calling user's route list
with the empty list, persists the registry image, and leaves every other
user's list, the seen-alert set, the price cache and the API usage counters
unchanged. -/
theorem C10_remove_frame (st : WatcherState) (uid : String) :
    (removeRoutes st uid).1.user_routes = (removeRoutes st uid).2 ∧
    alookup uid (removeRoutes st uid).1.user_routes = some [] ∧
    (∀ u, u ≠ uid → alookup u (removeRoutes st uid).1.user_routes =
      alookup u st.user_routes) ∧
    (removeRoutes st uid).1.seen_alerts = st.seen_alerts ∧
    (removeRoutes st uid).1.cache = st.cache ∧
    (removeRoutes st uid).1.api_usage = st.api_usage := by
  refine ⟨rfl, alookup_aset_self uid [] st.user_routes,
    fun u hu => alookup_aset_ne (fun h => hu h.symm) [] st.user_routes,
    rfl, rfl, rfl⟩

/-- C10 witness: removing user "u1" empties their list and leaves "u2"
untouched in a concrete two-user registry. -/
theorem C10_witness :
    alookup "u1" (removeRoutes
        ⟨[("u1", [⟨"KTM", "BKK", 60, [("economy", 200)], 7, none⟩]),
          ("u2", [⟨"DEL", "SIN", 30, [("economy", 150)], 8, none⟩])],
          [], [], []⟩ "u1").1.user_routes = some [] ∧
    alookup "u2" (removeRoutes
        ⟨[("u1", [⟨"KTM", "BKK", 60, [("economy", 200)], 7, none⟩]),
          ("u2", [⟨"DEL", "SIN", 30, [("economy", 150)], 8, none⟩])],
          [], [], []⟩ "u1").1.user_routes =
      alookup "u2"
        [("u1", [⟨"KTM", "BKK", 60, [("economy", 200)], 7, none⟩]),
          ("u2", [⟨"DEL", "SIN", 30, [("economy", 150)], 8, none⟩])] :=
  ⟨(C10_remove_frame ⟨[("u1", [⟨"KTM", "BKK", 60, [("economy", 200)], 7, none⟩]),
      ("u2", [⟨"DEL", "SIN", 30, [("economy", 150)], 8, none⟩])], [], [], []⟩
      "u1").2.1,
    (C10_remove_frame ⟨[("u1", [⟨"KTM", "BKK", 60, [("economy", 200)], 7, none⟩]),
      ("u2", [⟨"DEL", "SIN", 30, [("economy", 150)], 8, none⟩])], [], [], []⟩
      "u1").2.2.1 "u2" (by decide)⟩

/-- C4 counterexample: a route whose burst started at time 0, processed at
time 130 with its last poll at time 100, is skipped (no query, nothing
sent), yet the skip is not side-effect free: the expired burst flag is
cleared on the route (lines 104-105 run before the skip return of line 115). -/
theorem C4_counterexample :
    (searchFlightsForRoute
        ⟨[("u", [⟨"KTM", "BKK", 60, [("economy", 200)], 42, some 0⟩])], [],
          [(("KTM", "BKK", 42), 100)], []⟩
        ⟨"KTM", "BKK", 60, [("economy", 200)], 42, some 0⟩ 130 []).queried = false ∧
    (searchFlightsForRoute
        ⟨[("u", [⟨"KTM", "BKK", 60, [("economy", 200)], 42, some 0⟩])], [],
          [(("KTM", "BKK", 42), 100)], []⟩
        ⟨"KTM", "BKK", 60, [("economy", 200)], 42, some 0⟩ 130 []).sent = [] ∧
    (searchFlightsForRoute
        ⟨[("u", [⟨"KTM", "BKK", 60, [("economy", 200)], 42, some 0⟩])], [],
          [(("KTM", "BKK", 42), 100)], []⟩
        ⟨"KTM", "BKK", 60, [("economy", 200)], 42, some 0⟩ 130 []).route.high_freq_start
      = none ∧
    (⟨"KTM", "BKK", 60, [("economy", 200)], 42, some 0⟩ : Route).high_freq_start
      = some 0 := by
  norm_num [searchFlightsForRoute, pollKey, alookup, aset, decideInterval,
    DEFAULT_INTERVAL_MIN, HIGH_FREQ_INTERVAL_MIN, HIGH_FREQ_DURATION_MIN, API_QUOTA]

/-- C4 amended: with a recorded last poll, a fare query is issued only when
the elapsed time reaches the decided interval; when it is smaller the route
is skipped with no query, no alerts and the watcher state unchanged — the
only mutation being the interval decision itself, which may have cleared an
expired burst flag on the route. -/
theorem C4_skip_guard (st : WatcherState) (r : Route) (now : ℚ)
    (offers : List Offer) (last : ℚ)
    (hLast : alookup (pollKey r) st.cache = some last) :
    ((searchFlightsForRoute st r now offers).queried = true →
        (decideInterval r now).1 ≤ now - last) ∧
    (now - last < (decideInterval r now).1 →
      searchFlightsForRoute st r now offers =
        ⟨(decideInterval r now).2, st, [], false⟩) := by
  simp only [searchFlightsForRoute, hLast, decide_eq_true_eq]
  by_cases hlt : now - last < (decideInterval r now).1
  · rw [if_pos hlt]
    exact ⟨fun h => (nomatch h), fun _ => rfl⟩
  · rw [if_neg hlt]
    exact ⟨fun _ => not_lt.mp hlt, fun h => absurd h hlt⟩

/-- C4 witness: last poll at time 100, processed at time 130 with an expired
burst (started at 0): elapsed 30 is under the 35-minute baseline, so the
pass returns the demoted route and the untouched state. -/
theorem C4_witness :
    searchFlightsForRoute
        ⟨[("u", [⟨"KTM", "BKK", 60, [("economy", 200)], 7, some 0⟩])], [],
          [(("KTM", "BKK", 7), 100)], []⟩
        ⟨"KTM", "BKK", 60, [("economy", 200)], 7, some 0⟩ 130 [] =
      ⟨(decideInterval ⟨"KTM", "BKK", 60, [("economy", 200)], 7, some 0⟩ 130).2,
        ⟨[("u", [⟨"KTM", "BKK", 60, [("economy", 200)], 7, some 0⟩])], [],
          [(("KTM", "BKK", 7), 100)], []⟩, [], false⟩ :=
  (C4_skip_guard
    ⟨[("u", [⟨"KTM", "BKK", 60, [("economy", 200)], 7, some 0⟩])], [],
      [(("KTM", "BKK", 7), 100)], []⟩
    ⟨"KTM", "BKK", 60, [("economy", 200)], 7, some 0⟩ 130 [] 100 (by decide)).2
    (by norm_num [decideInterval, DEFAULT_INTERVAL_MIN, HIGH_FREQ_DURATION_MIN])

/-- C7 counterexample: a queried pass that observes an offer priced 180 and
alerts on it leaves the cache holding exactly one entry — the last-checked
timestamp 1000 under the (origin, destination, chat) key. No entry keyed by
a (route, date-pair, cabin) combination exists and the observed price 180 is
stored nowhere in the cache. -/
theorem C7_counterexample :
    (searchFlightsForRoute
        ⟨[("u", [⟨"KTM", "BKK", 60, [("economy", 200)], 42, none⟩])], [], [], []⟩
        ⟨"KTM", "BKK", 60, [("economy", 200)], 42, none⟩ 1000
        [⟨some 180, some "ECONOMY", some "X1"⟩]).sent =
      [⟨42, "KTM", "BKK", "economy", 180, some "X1"⟩] ∧
    (searchFlightsForRoute
        ⟨[("u", [⟨"KTM", "BKK", 60, [("economy", 200)], 42, none⟩])], [], [], []⟩
        ⟨"KTM", "BKK", 60, [("economy", 200)], 42, none⟩ 1000
        [⟨some 180, some "ECONOMY", some "X1"⟩]).state.cache =
      [(("KTM", "BKK", 42), 1000)] ∧
    ¬ (180 : ℚ) ∈ ((searchFlightsForRoute
        ⟨[("u", [⟨"KTM", "BKK", 60, [("economy", 200)], 42, none⟩])], [], [], []⟩
        ⟨"KTM", "BKK", 60, [("economy", 200)], 42, none⟩ 1000
        [⟨some 180, some "ECONOMY", some "X1"⟩]).state.cache.map Prod.snd) := by
  decide

/-- C7 amended: the cache memoizes a single last-checked timestamp per
(origin, destination, chat) key — on a queried pass that key is set to now
and every other key is untouched; observed prices are never written to it,
and the skip that it drives is time-based (claim C4), not keyed by date-pair
or cabin. -/
theorem C7_cache_behaviour (st : WatcherState) (r : Route) (now : ℚ)
    (offers : List Offer) :
    ((searchFlightsForRoute st r now offers).queried = true →
      alookup (pollKey r) (searchFlightsForRoute st r now offers).state.cache =
        some now) ∧
    ∀ k : PollKey, k ≠ pollKey r →
      alookup k (searchFlightsForRoute st r now offers).state.cache =
        alookup k st.cache := by
  simp only [searchFlightsForRoute]
  split
  · exact ⟨fun h => (nomatch h), fun k hk => rfl⟩
  · split
    · exact ⟨fun h => (nomatch h),
        fun k hk => alookup_aset_ne (Ne.symm hk) now st.cache⟩
    · exact ⟨fun _ => alookup_aset_self (pollKey r) now st.cache,
        fun k hk => alookup_aset_ne (Ne.symm hk) now st.cache⟩

/-- C7 witness: a queried pass from an empty cache records last-checked 1000
under the route's key and leaves an unrelated key absent as before. -/
theorem C7_witness :
    alookup (pollKey ⟨"KTM", "BKK", 60, [("economy", 200)], 42, none⟩)
        (searchFlightsForRoute ⟨[], [], [], []⟩
          ⟨"KTM", "BKK", 60, [("economy", 200)], 42, none⟩ 1000 []).state.cache =
      some 1000 ∧
    alookup (("AAA", "BBB", 1) : PollKey)
        (searchFlightsForRoute ⟨[], [], [], []⟩
          ⟨"KTM", "BKK", 60, [("economy", 200)], 42, none⟩ 1000 []).state.cache =
      alookup (("AAA", "BBB", 1) : PollKey) ([] : List (PollKey × ℚ)) :=
  ⟨(C7_cache_behaviour ⟨[], [], [], []⟩
      ⟨"KTM", "BKK", 60, [("economy", 200)], 42, none⟩ 1000 []).1 (by decide),
    (C7_cache_behaviour ⟨[], [], [], []⟩
      ⟨"KTM", "BKK", 60, [("economy", 200)], 42, none⟩ 1000 []).2
      (("AAA", "BBB", 1) : PollKey) (by decide)⟩

/-- C8 counterexample: the usage counter is keyed by chat id alone. A call
issued at time 0 (day one) leaves the count at 1; on the next pass at time
1440 — the following calendar day — the count read for the same chat is
still 1, not 0, and the next call takes it to 2: no day-boundary rollover
exists. -/
theorem C8_counterexample :
    (searchFlightsForRoute
        ⟨[("u", [⟨"KTM", "BKK", 60, [("economy", 200)], 42, none⟩])], [], [], []⟩
        ⟨"KTM", "BKK", 60, [("economy", 200)], 42, none⟩ 0 []).state =
      ⟨[("u", [⟨"KTM", "BKK", 60, [("economy", 200)], 42, none⟩])], [],
        [(("KTM", "BKK", 42), 0)], [(42, 1)]⟩ ∧
    alookup 42 (searchFlightsForRoute
        ⟨[("u", [⟨"KTM", "BKK", 60, [("economy", 200)], 42, none⟩])], [],
          [(("KTM", "BKK", 42), 0)], [(42, 1)]⟩
        ⟨"KTM", "BKK", 60, [("economy", 200)], 42, none⟩ 1440 []).state.api_usage =
      some 2 := by
  constructor
  · decide
  · norm_num [searchFlightsForRoute, pollKey, alookup, aset, decideInterval,
      DEFAULT_INTERVAL_MIN, HIGH_FREQ_INTERVAL_MIN, HIGH_FREQ_DURATION_MIN,
      API_QUOTA, List.foldl]

/-- C8 amended: the usage counter is keyed by the owning chat id only (no
calendar-day component and no reset); on a pass that is not skipped, when
the stored count has reached the 2000 quota no call is issued and the count
is unchanged, and otherwise the call is issued and the count is incremented
by exactly one. -/
theorem C8_usage_counter (st : WatcherState) (r : Route) (now : ℚ)
    (offers : List Offer) (u : ℕ)
    (hu : (alookup r.chat_id st.api_usage).getD 0 = u)
    (hNoSkip : ∀ last, alookup (pollKey r) st.cache = some last →
      (decideInterval r now).1 ≤ now - last) :
    (API_QUOTA ≤ u →
      (searchFlightsForRoute st r now offers).queried = false ∧
      alookup r.chat_id (searchFlightsForRoute st r now offers).state.api_usage =
        some u) ∧
    (u < API_QUOTA →
      (searchFlightsForRoute st r now offers).queried = true ∧
      alookup r.chat_id (searchFlightsForRoute st r now offers).state.api_usage =
        some (u + 1)) := by
  have hskip : (match alookup (pollKey r) st.cache with
      | some last => decide (now - last < (decideInterval r now).1)
      | none => false) = false := by
    cases halt : alookup (pollKey r) st.cache with
    | none => rfl
    | some last => simpa using not_lt.mpr (hNoSkip last halt)
  simp only [searchFlightsForRoute, hskip, Bool.false_eq_true, if_false, hu]
  by_cases hq : API_QUOTA ≤ u
  · rw [if_pos hq]
    exact ⟨fun _ => ⟨rfl, alookup_aset_self r.chat_id u st.api_usage⟩,
      fun h => absurd hq (not_le.mpr h)⟩
  · rw [if_neg hq]
    exact ⟨fun h => absurd h hq,
      fun _ => ⟨rfl, alookup_aset_self r.chat_id (u + 1) _⟩⟩

/-- C8 witness: from a fresh state (count 0) a pass at time 0 issues the
call and leaves the chat's count at exactly 1. -/
theorem C8_witness :
    (searchFlightsForRoute ⟨[], [], [], []⟩
        ⟨"KTM", "BKK", 60, [("economy", 200)], 42, none⟩ 0 []).queried = true ∧
    alookup 42 (searchFlightsForRoute ⟨[], [], [], []⟩
        ⟨"KTM", "BKK", 60, [("economy", 200)], 42, none⟩ 0 []).state.api_usage =
      some (0 + 1) :=
  (C8_usage_counter ⟨[], [], [], []⟩
    ⟨"KTM", "BKK", 60, [("economy", 200)], 42, none⟩ 0 [] 0 rfl
    (fun last h => nomatch h)).2 (by decide)

end FlightWatcher
